import Mathlib

set_option maxRecDepth 8192

/-!
Verification of the note-taking application's core workflow logic:
validation engine, deletion workflow with backups, diff computation,
export/import codec and error categorization.

JavaScript values flowing through the import/export codec are dynamic,
so they are embedded as a `Json` value type.  The JSON text layer
(`JSON.stringify` followed by `JSON.parse`) is the identity on
JSON-representable values and is modelled as such: exported documents
are kept as `Json` trees.  Nondeterministic generators (`Date.now()`,
`generateNoteId`, `new Date().toISOString()`) are passed in as explicit
parameters.  `new Date(x).toDateString()` is modelled by an arbitrary
day-key function `dayOf : String → String` applied to stored timestamps,
with the current day's key passed separately.
-/

namespace NotesApp

set_option maxRecDepth 8192 in
/-- Dynamic JSON values: the shapes JavaScript objects take after
`JSON.parse`.  Objects are ordered key/value lists (parsed JSON objects
have unique keys, later duplicates having overwritten earlier ones). -/
inductive Json where
  | null : Json
  | bool : Bool → Json
  | num : Int → Json
  | str : String → Json
  | arr : List Json → Json
  | obj : List (String × Json) → Json
deriving Repr

/-- Key lookup in a JavaScript object's field list (first match). -/
def jsonLookup : List (String × Json) → String → Option Json
  | [], _ => none
  | (k, v) :: rest, key => if k = key then some v else jsonLookup rest key

/-- Property access `data.key` on a dynamic value: defined for objects,
`undefined` (here `none`) on every other shape that does not throw. -/
def getField : Json → String → Option Json
  | Json.obj fields, key => jsonLookup fields key
  | _, _ => none

/-- JavaScript truthiness of a value (`undefined` is handled by callers
via `Option`). -/
def jsTruthy : Json → Bool
  | Json.null => false
  | Json.bool b => b
  | Json.num n => n ≠ 0
  | Json.str s => s ≠ ""
  | Json.arr _ => true
  | Json.obj _ => true

/-- Truthiness of a possibly-`undefined` property. -/
def jsTruthyOpt : Option Json → Bool
  | none => false
  | some v => jsTruthy v

/-- JavaScript property assignment `o[key] = v`: overwrite in place when
the key exists (keeping its position), append otherwise. -/
def objSet {α : Type} : List (String × α) → String → α → List (String × α)
  | [], key, v => [(key, v)]
  | (k, w) :: rest, key, v =>
      if k = key then (key, v) :: rest else (k, w) :: objSet rest key v

/-- The own enumerable properties produced by a spread `{...x}`:
an object's fields; a string spreads to index-keyed characters;
primitives spread to nothing. -/
def spreadFields : Json → List (String × Json)
  | Json.obj fields => fields
  | Json.str s =>
      (s.toList.enum).map (fun p => (toString p.1, Json.str (String.singleton p.2)))
  | _ => []

/-- `BusinessLogicManager.performDataImport`'s per-note construction:
`{...note, id: this.generateNoteId(), createdAt: now, lastModified: now}`. -/
def importNote (fresh : String) (now : String) (note : Json) : Json :=
  Json.obj
    (objSet
      (objSet
        (objSet (spreadFields note) "id" (Json.str fresh))
        "createdAt" (Json.str now))
      "lastModified" (Json.str now))

/-- Field `key` of the element at position `i` of a notes array. -/
def getFieldAt (l : List Json) (i : Nat) (key : String) : Option Json :=
  (l.get? i).bind (fun a => getField a key)

/-- The result record of `performDataImport`. -/
structure ImportResult where
  imported : Nat
  skipped : Nat
  errors : List String
deriving Repr, DecidableEq

/-- The `for (const note of data.notes)` loop of `performDataImport`.
Its body — spread plus three property overrides, then a push — is total,
so the surrounding `try`/`catch`'s error arm has no corresponding case.
The `Nat` argument indexes the successive `generateNoteId()` calls. -/
def importLoop (freshIds : Nat → String) (now : String) :
    Nat → List Json → Nat × List Json
  | _, [] => (0, [])
  | k, note :: rest =>
      let imported := importNote (freshIds k) now note
      let r := importLoop freshIds now (k + 1) rest
      (r.1 + 1, imported :: r.2)

/-- `BusinessLogicManager.performDataImport`: when `data.notes` is an
array, append every incoming note (with fresh id and timestamps) to the
persisted collection; otherwise change nothing.  Returns the result
record and the new persisted notes array. -/
def performDataImport (data : Json) (freshIds : Nat → String) (now : String)
    (existingNotes : List Json) : ImportResult × List Json :=
  match getField data "notes" with
  | some (Json.arr importList) =>
      let r := importLoop freshIds now 0 importList
      (⟨r.1, 0, []⟩, existingNotes ++ r.2)
  | _ => (⟨0, 0, []⟩, existingNotes)

/-! ## Note records (spec §3 data model, shapes from `handleNoteCreation`
and `validateDeletionPermissions`) -/

/-- A Note record.  `audio` is the nullable encoded payload;
`isProtected` is read by the deletion-permission check and is falsy
(absent) on notes created in-app. -/
structure Note where
  id : String
  title : String
  content : String
  category : String
  tags : List String
  priority : String
  isPublic : Bool
  audio : Option String
  createdAt : String
  lastModified : String
  isProtected : Bool
deriving Repr, DecidableEq

/-- The JSON image of a Note record, as it sits in the persisted `notes`
array and in exported documents. -/
def Note.toJson (n : Note) : Json :=
  Json.obj
    [ ("id", Json.str n.id)
    , ("title", Json.str n.title)
    , ("content", Json.str n.content)
    , ("category", Json.str n.category)
    , ("tags", Json.arr (n.tags.map Json.str))
    , ("priority", Json.str n.priority)
    , ("isPublic", Json.bool n.isPublic)
    , ("audio", match n.audio with | some a => Json.str a | none => Json.null)
    , ("createdAt", Json.str n.createdAt)
    , ("lastModified", Json.str n.lastModified)
    , ("isProtected", Json.bool n.isProtected) ]

/-- `DataManager.exportData(notes, 'json')`: the exported document
`{exportInfo: {date, version, format, totalNotes}, notes, categories,
metadata}`.  `JSON.stringify` with 2-space indentation followed by
`JSON.parse` is the identity on this tree, so the document itself is the
parsed value of the serialized export. -/
def exportDataJson (notes : List Note) (exportDate : String) (version : String)
    (categories : Json) (metadata : Json) : Json :=
  Json.obj
    [ ("exportInfo", Json.obj
        [ ("date", Json.str exportDate)
        , ("version", Json.str version)
        , ("format", Json.str "json")
        , ("totalNotes", Json.num notes.length) ])
    , ("notes", Json.arr (notes.map Note.toJson))
    , ("categories", categories)
    , ("metadata", metadata) ]

/-! ## CSV export (`DataManager.exportToCSV`) -/

/-- The fixed 11-column CSV header row. -/
def csvHeader : String :=
  "ID,Title,Content,Category,Priority,Tags,Has Audio,Is Public,Created Date,Modified Date,Character Count"

/-- `.replace(/"/g, '""')` on the character list: every double-quote
character becomes two. -/
def dupQuoteChars : List Char → List Char
  | [] => []
  | c :: rest =>
      if c = '"' then '"' :: '"' :: dupQuoteChars rest
      else c :: dupQuoteChars rest

/-- `.replace(/"/g, '""')`: global replacement of each `"` by `""`. -/
def csvEscapeQuotes (s : String) : String :=
  String.mk (dupQuoteChars s.toList)

/-- One CSV data row: the 11 fields of `exportToCSV`'s `row` array,
joined with commas.  Only Title and Content go through
`.replace(/"/g, '""')`; the other quoted fields are embedded verbatim. -/
def csvRow (note : Note) : String :=
  String.intercalate ","
    [ "\"" ++ note.id ++ "\""
    , "\"" ++ csvEscapeQuotes note.title ++ "\""
    , "\"" ++ csvEscapeQuotes note.content ++ "\""
    , "\"" ++ note.category ++ "\""
    , "\"" ++ (if note.priority = "" then "medium" else note.priority) ++ "\""
    , "\"" ++ String.intercalate "; " note.tags ++ "\""
    , (if note.audio.isSome then "Yes" else "No")
    , (if note.isPublic then "Yes" else "No")
    , "\"" ++ note.createdAt ++ "\""
    , "\"" ++ note.lastModified ++ "\""
    , toString note.content.length ]

/-- `DataManager.exportToCSV`: header line, then one line per note. -/
def exportToCSV (notes : List Note) : String :=
  notes.foldl (fun csv note => csv ++ csvRow note ++ "\n") (csvHeader ++ "\n")

/-! ## Validation engine (`validateNoteData`, `validateBusinessRules`,
`getTodayNoteCount`) -/

/-- A configured category (fields used by validation). -/
structure Category where
  id : String
  name : String
  isActive : Bool
deriving Repr, DecidableEq

/-- The result shape of `validateNoteData`. -/
structure Validation where
  isValid : Bool
  errors : List String
  warnings : List String
  businessRuleViolations : List String
deriving Repr, DecidableEq

/-- `validationRules.get('note')` limits. -/
def titleMaxLength : Nat := 200

def contentMaxLength : Nat := 50000

def tagsMaxCount : Nat := 10

def tagMaxLength : Nat := 30

def priorityEnum : List String := ["low", "medium", "high"]

/-- `businessRules.get('note_creation').maxDailyNotes`. -/
def maxDailyNotes : Nat := 100

def titleRequiredMsg : String := "Title is required"

def titleTooLongMsg : String := "Title too long (max 200 characters)"

def contentRequiredMsg : String := "Content is required"

def contentTooLongMsg : String := "Content too long (max 50000 characters)"

def categoryRequiredMsg : String := "Category is required"

def invalidCategoryMsg : String := "Invalid category selected"

def tooManyTagsMsg : String := "Too many tags (max 10)"

def tagTooLongMsg (tag : String) : String :=
  "Tag \"" ++ tag ++ "\" too long (max 30 chars)"

def invalidPriorityMsg : String := "Invalid priority value"

def dailyLimitMsg : String := "Daily note limit reached (100)"

def emptyContentMsg : String := "Empty content not allowed by business rules"

/-- `String.prototype.trim`: strip whitespace from both ends. -/
def jsTrim (s : String) : String :=
  String.mk
    (((s.toList.dropWhile Char.isWhitespace).reverse.dropWhile
        Char.isWhitespace).reverse)

/-- One `validation.errors.push(msg); validation.isValid = false;`
statement guarded by its condition. -/
def pushError (cond : Prop) [Decidable cond] (msg : String)
    (v : Validation) : Validation :=
  if cond then { v with errors := v.errors ++ [msg], isValid := false } else v

/-- One `validation.warnings.push(msg)` statement guarded by its
condition (warnings never touch `isValid`). -/
def pushWarning (cond : Prop) [Decidable cond] (msg : String)
    (v : Validation) : Validation :=
  if cond then { v with warnings := v.warnings ++ [msg] } else v

/-- A loop of `validation.warnings.push` calls. -/
def pushWarnings (msgs : List String) (v : Validation) : Validation :=
  { v with warnings := v.warnings ++ msgs }

/-- One `validation.businessRuleViolations.push(msg);
validation.isValid = false;` statement guarded by its condition. -/
def pushBRV (cond : Prop) [Decidable cond] (msg : String)
    (v : Validation) : Validation :=
  if cond then
    { v with businessRuleViolations := v.businessRuleViolations ++ [msg],
             isValid := false }
  else v

/-- `getTodayNoteCount`: notes of the persisted collection whose
`createdAt`, mapped to a calendar-day key by `toDateString`, equals the
current day's key. -/
def getTodayNoteCount (notes : List Note) (dayOf : String → String)
    (todayKey : String) : Nat :=
  (notes.filter (fun note => dayOf note.createdAt = todayKey)).length

/-- The `forEach` over tags pushing a warning per over-long (truthy)
tag. -/
def tagWarnings (tags : List String) : List String :=
  tags.filterMap (fun tag =>
    if tag ≠ "" ∧ tag.length > tagMaxLength then some (tagTooLongMsg tag)
    else none)

/-- `validateBusinessRules`: daily-quota check against
`maxDailyNotes`, then the empty-content business rule; each hit appends
a `businessRuleViolations` entry and clears `isValid`. -/
def validateBusinessRules (noteData : Note) (todayCount : Nat)
    (v : Validation) : Validation :=
  pushBRV (noteData.content = "" ∨ (jsTrim noteData.content).length = 0)
    emptyContentMsg
    (pushBRV (todayCount ≥ maxDailyNotes) dailyLimitMsg v)

/-- `validateNoteData`: sequential field checks (title, content,
category, tags, priority) followed by `validateBusinessRules`.
Hard-limit violations append to `errors` and clear `isValid`; tag-limit
violations append to `warnings` only.  The category lookup reads the
configured categories and the daily count reads the persisted
collection, both passed in explicitly. -/
def validateNoteData (noteData : Note) (categories : List Category)
    (existingNotes : List Note) (dayOf : String → String)
    (todayKey : String) : Validation :=
  let v : Validation := ⟨true, [], [], []⟩
  let v := pushError
    (noteData.title = "" ∨ (jsTrim noteData.title).length = 0)
    titleRequiredMsg v
  let v := pushError
    (noteData.title ≠ "" ∧ noteData.title.length > titleMaxLength)
    titleTooLongMsg v
  let v := pushError
    (noteData.content = "" ∨ (jsTrim noteData.content).length = 0)
    contentRequiredMsg v
  let v := pushError
    (noteData.content ≠ "" ∧ noteData.content.length > contentMaxLength)
    contentTooLongMsg v
  let v := pushError (noteData.category = "") categoryRequiredMsg v
  let v := pushError
    (noteData.category ≠ "" ∧
      (categories.find? (fun c => c.id = noteData.category ∧ c.isActive)).isNone)
    invalidCategoryMsg v
  let v := pushWarning (noteData.tags.length > tagsMaxCount) tooManyTagsMsg v
  let v := pushWarnings (tagWarnings noteData.tags) v
  let v := pushError
    (noteData.priority ≠ "" ∧ noteData.priority ∉ priorityEnum)
    invalidPriorityMsg v
  validateBusinessRules noteData (getTodayNoteCount existingNotes dayOf todayKey) v

/-! ## Diff computation (`calculateNoteChanges`) -/

/-- One entry of a `changes` array: `{field, from, to}`.  The `from`/`to`
values are strings for title/content/category/priority, arrays for tags
and booleans for audio presence, hence dynamic values. -/
structure FieldChange where
  field : String
  fromVal : Json
  toVal : Json
deriving Repr

/-- `JSON.stringify` of a tag (a string): quote-wrapped with JSON
escaping of backslash, quote and the common control characters. -/
def jsonQuote (s : String) : String :=
  "\"" ++ String.join (s.toList.map (fun c =>
    if c = '"' then "\\\""
    else if c = '\\' then "\\\\"
    else if c = '\n' then "\\n"
    else if c = '\t' then "\\t"
    else if c = '\r' then "\\r"
    else String.singleton c)) ++ "\""

/-- `JSON.stringify` of a tags array: the comparison key used by
`calculateNoteChanges` for the `tags` field. -/
def jsonStringifyTags (tags : List String) : String :=
  "[" ++ String.intercalate "," (tags.map jsonQuote) ++ "]"

/-- `calculateNoteChanges(original, updated)`: pushes one change record
per differing field, in the fixed order title, content, category, tags
(compared via `JSON.stringify`), priority, audio presence (`!!audio`). -/
def calculateNoteChanges (original updated : Note) : List FieldChange :=
  (if original.title ≠ updated.title then
    [⟨"title", Json.str original.title, Json.str updated.title⟩] else []) ++
  (if original.content ≠ updated.content then
    [⟨"content", Json.str original.content, Json.str updated.content⟩] else []) ++
  (if original.category ≠ updated.category then
    [⟨"category", Json.str original.category, Json.str updated.category⟩] else []) ++
  (if jsonStringifyTags original.tags ≠ jsonStringifyTags updated.tags then
    [⟨"tags", Json.arr (original.tags.map Json.str),
      Json.arr (updated.tags.map Json.str)⟩] else []) ++
  (if original.priority ≠ updated.priority then
    [⟨"priority", Json.str original.priority, Json.str updated.priority⟩] else []) ++
  (if original.audio.isSome ≠ updated.audio.isSome then
    [⟨"audio", Json.bool original.audio.isSome, Json.bool updated.audio.isSome⟩] else [])

/-! ## Error categorization (`ErrorHandlingSystem.categorizeError`) -/

/-- `String.prototype.includes`: substring test on character lists. -/
def charsContain (sub : List Char) : List Char → Bool
  | [] => sub.isEmpty
  | c :: rest => sub.isPrefixOf (c :: rest) || charsContain sub rest

/-- `s.includes(sub)`. -/
def jsIncludes (s sub : String) : Bool :=
  charsContain sub.toList s.toList

/-- `String.prototype.toLowerCase`, character by character. -/
def jsToLower (s : String) : String :=
  String.mk (s.toList.map Char.toLower)

/-- The normalized error fields `categorizeError` inspects: `message`
and `name` (lowercased inside), plus the normalizer's `type` tag. -/
structure ErrInfo where
  message : String
  name : String
  type : String
deriving Repr, DecidableEq

/-- The Network keyword test (on already-lowercased message/name). -/
def matchesNetwork (message name : String) : Bool :=
  jsIncludes message "fetch" || jsIncludes message "network" ||
  jsIncludes message "connection" || jsIncludes name "networkerror"

/-- The Storage keyword test. -/
def matchesStorage (message name : String) : Bool :=
  jsIncludes message "storage" || jsIncludes message "quota" ||
  jsIncludes name "quotaexceedederror"

/-- The Permission keyword test. -/
def matchesPermission (message name : String) : Bool :=
  jsIncludes message "permission" || jsIncludes message "denied" ||
  jsIncludes message "not allowed" || jsIncludes name "notallowederror"

/-- The Audio/Media keyword test. -/
def matchesAudio (message name : String) : Bool :=
  jsIncludes message "audio" || jsIncludes message "microphone" ||
  jsIncludes message "media" || jsIncludes name "mediaerror"

/-- The File keyword test. -/
def matchesFile (message : String) : Bool :=
  jsIncludes message "file" || jsIncludes message "blob" ||
  jsIncludes message "upload" || jsIncludes message "download"

/-- The Validation test (keywords or the normalizer's `type` tag). -/
def matchesValidation (message : String) (type_ : String) : Bool :=
  jsIncludes message "validation" || jsIncludes message "invalid" ||
  jsIncludes message "required" || type_ = "VALIDATION"

/-- `categorizeError`: lowercases `message` and `name`, then returns the
first matching category in the fixed order Network, Storage, Permission,
Audio, File, Validation, defaulting to `'UNKNOWN'`. -/
def categorizeError (e : ErrInfo) : String :=
  let message := jsToLower e.message
  let name := jsToLower e.name
  if matchesNetwork message name then "NETWORK"
  else if matchesStorage message name then "STORAGE"
  else if matchesPermission message name then "PERMISSION"
  else if matchesAudio message name then "AUDIO"
  else if matchesFile message then "FILE"
  else if matchesValidation message e.type then "VALIDATION"
  else "UNKNOWN"

/-! ## Deletion workflow (`startNoteDeletionWorkflow` and helpers) -/

/-- A Backup Record as written into the `note_backups` store:
`{note (full snapshot), timestamp, type}`.  (`backupId` is the key.) -/
structure BackupRecord where
  note : Note
  timestamp : String
  type : String
deriving Repr, DecidableEq

/-- The persisted stores the deletion workflow touches: the `notes`
array and the `note_backups` keyed object. -/
structure StoreState where
  notes : List Note
  backups : List (String × BackupRecord)
deriving Repr, DecidableEq

/-- The finalized in-memory Workflow Record (`completeWorkflow`):
status plus the optional error message; step results are elided, step
names kept in push order. -/
structure WorkflowRecord where
  type : String
  status : String
  error : Option String
  steps : List String
deriving Repr, DecidableEq

/-- What `startNoteDeletionWorkflow` hands back to its caller: either a
returned result object or a propagated exception message. -/
inductive DeletionResult where
  | ret (success : Bool) (reason : Option String) (deletedNote : Option Note)
      (backup : Option String)
  | thrown (msg : String)
deriving Repr, DecidableEq

/-- `performNoteDeletion`'s `findIndex` + `splice(i, 1)`: remove the
first note with the given id, returning it and the remaining array;
`none` when no index matches. -/
def removeFirstById : List Note → String → Option (Note × List Note)
  | [], _ => none
  | note :: rest, noteId =>
      if note.id = noteId then some (note, rest)
      else
        match removeFirstById rest noteId with
        | none => none
        | some (deleted, rest') => some (deleted, note :: rest')

/-- `createDeletionBackup`: key `deletion_backup_<Date.now()>_<note.id>`
mapped to a snapshot record tagged `'deletion_backup'`. -/
def createDeletionBackup (backups : List (String × BackupRecord))
    (note : Note) (nowMs : Nat) (nowIso : String) :
    String × List (String × BackupRecord) :=
  let backupId := "deletion_backup_" ++ toString nowMs ++ "_" ++ note.id
  (backupId, objSet backups backupId ⟨note, nowIso, "deletion_backup"⟩)

/-- `startNoteDeletionWorkflow`: load the note (`find` by id, not-found
throws), check `isProtected`, ask the user (`confirmDelete` modelled by
the boolean `userConfirms`), create the deletion backup, splice the note
out, finalize the Workflow Record.  `nowMs`/`nowIso` stand for
`Date.now()` and `new Date().toISOString()` during the run.  Every throw
is finalized as status `'error'` with the error's message; a declined
confirmation returns `{success: false, reason: 'User cancelled
deletion'}` with status `'cancelled'`. -/
def startNoteDeletionWorkflow (st : StoreState) (noteId : String)
    (userConfirms : Bool) (nowMs : Nat) (nowIso : String) :
    DeletionResult × StoreState × WorkflowRecord :=
  match st.notes.find? (fun n => n.id = noteId) with
  | none =>
      (DeletionResult.thrown "Note not found", st,
       ⟨"note_deletion", "error", some "Note not found", []⟩)
  | some note =>
      if note.isProtected then
        (DeletionResult.thrown "Cannot delete note: Note is protected from deletion",
         st,
         ⟨"note_deletion", "error",
          some "Cannot delete note: Note is protected from deletion",
          ["load_note", "validate_permissions"]⟩)
      else if !userConfirms then
        (DeletionResult.ret false (some "User cancelled deletion") none none,
         st,
         ⟨"note_deletion", "cancelled", none,
          ["load_note", "validate_permissions", "user_confirmation"]⟩)
      else
        let backup := createDeletionBackup st.backups note nowMs nowIso
        match removeFirstById st.notes noteId with
        | none =>
            (DeletionResult.thrown "Note not found for deletion",
             { st with backups := backup.2 },
             ⟨"note_deletion", "error", some "Note not found for deletion",
              ["load_note", "validate_permissions", "user_confirmation",
               "create_backup"]⟩)
        | some (_, notes') =>
            (DeletionResult.ret true none (some note) (some backup.1),
             ⟨notes', backup.2⟩,
             ⟨"note_deletion", "success", none,
              ["load_note", "validate_permissions", "user_confirmation",
               "create_backup", "deletion"]⟩)

/-! ## Import workflow (`validateImportData`, `startImportWorkflow`
after parsing) -/

/-- The result shape of `validateImportData`: `isValid` initialized to
`true` and `warnings` collected — no statement in the function body ever
writes `isValid`. -/
structure ImportValidation where
  isValid : Bool
  warnings : List String
deriving Repr, DecidableEq

/-- The per-note `forEach` of `validateImportData`: a warning for each
missing (falsy) `title` or `content`. -/
def importNoteWarnings (notes : List Json) : List String :=
  (notes.enum.map (fun p =>
    (if !(jsTruthyOpt (getField p.2 "title")) then
      ["Note " ++ toString (p.1 + 1) ++ " missing title"] else []) ++
    (if !(jsTruthyOpt (getField p.2 "content")) then
      ["Note " ++ toString (p.1 + 1) ++ " missing content"] else []))).flatten

/-- `validateImportData(data)`: warns when `data.notes` is missing or
not an array, and per note on missing title/content. -/
def validateImportData (data : Json) : ImportValidation :=
  let v : ImportValidation := ⟨true, []⟩
  let notesField := getField data "notes"
  let isArr := match notesField with
    | some (Json.arr _) => true
    | _ => false
  let v :=
    if !(jsTruthyOpt notesField) || !isArr then
      { v with warnings := v.warnings ++ ["No valid notes found in import data"] }
    else v
  match notesField with
  | some (Json.arr notes) =>
      { v with warnings := v.warnings ++ importNoteWarnings notes }
  | some other =>
      if jsTruthy other then v else v
  | none => v

/-- The outcome of `startImportWorkflow` from the point where the file
has been parsed: whether the \x22Import Anyway\x22 confirmation modal
was shown, the returned result, the final persisted notes array and the
finalized workflow status. -/
structure ImportWorkflowRun where
  askedImportAnyway : Bool
  success : Bool
  reason : Option String
  imported : Nat
  skipped : Nat
  errors : List String
  notes : List Json
  status : String
deriving Repr

/-- `startImportWorkflow` from step 3 (validate import data) onward:
the \x22Import Anyway\x22 confirm fires only under
`!dataValidation.isValid`; the count preview confirm
(`previewConfirm`) guards the actual import; declining either path
finalizes the workflow as `'cancelled'`. -/
def startImportWorkflow (data : Json) (importAnywayResp : Bool)
    (previewConfirm : Bool) (freshIds : Nat → String) (now : String)
    (existingNotes : List Json) : ImportWorkflowRun :=
  let dataValidation := validateImportData data
  let asked := !dataValidation.isValid
  if asked ∧ !importAnywayResp then
    ⟨asked, false, some "User cancelled due to validation issues",
     0, 0, [], existingNotes, "cancelled"⟩
  else if !previewConfirm then
    ⟨asked, false, some "User cancelled after preview",
     0, 0, [], existingNotes, "cancelled"⟩
  else
    let r := performDataImport data freshIds now existingNotes
    ⟨asked, true, none, r.1.imported, r.1.skipped, r.1.errors, r.2, "success"⟩

/-! ## Concrete inputs used to instantiate the theorems -/

/-- A well-formed sample note. -/
def wNote : Note :=
  ⟨"orig_id", "Sample", "Some content", "personal", ["a", "b"], "medium",
   false, none, "2026-01-01T10:00:00.000Z", "2026-01-01T10:00:00.000Z", false⟩

/-- A one-category configuration matching `wNote.category`. -/
def wCats : List Category := [⟨"personal", "Personal", true⟩]

def wTitle200 : String := String.mk (List.replicate 200 'a')

def wTitle201 : String := String.mk (List.replicate 201 'a')

def wContent50000 : String := String.mk (List.replicate 50000 'b')

def wContent50001 : String := String.mk (List.replicate 50001 'b')

/-- A persisted collection holding 100 copies of `wNote` (all created
on the same calendar day). -/
def wNotes100 : List Note := List.replicate 100 wNote

/-- A parsed import document with one title-less note and one
non-object entry. -/
def wImportData : Json :=
  Json.obj [("notes", Json.arr [Json.obj [("content", Json.str "hello")], Json.num 5])]

/-- A parsed import document whose single note is missing its title. -/
def wMissingTitleData : Json :=
  Json.obj [("notes", Json.arr [Json.obj [("content", Json.str "hello")]])]

/-- A note whose content and category both contain a double-quote
character. -/
def wCsvNote : Note :=
  ⟨"n1", "T", "He said \"hi\"", "x\"y", ["a", "b"], "medium", false, none,
   "2026-01-01", "2026-01-02", false⟩

/-- The body of a CSV export: one `csvRow`-plus-newline block per note,
in order.  Spelled out recursively to state the shape of
`exportToCSV`'s output. -/
def csvBody : List Note → String
  | [] => ""
  | n :: t => csvRow n ++ "\n" ++ csvBody t

end NotesApp

namespace NotesApp

/-! ## Projection lemmas for the validation push combinators -/

lemma pushError_errors (c : Prop) [Decidable c] (m : String) (v : Validation) :
    (pushError c m v).errors = v.errors ++ if c then [m] else [] := by
  unfold pushError; split <;> simp

lemma pushError_warnings (c : Prop) [Decidable c] (m : String) (v : Validation) :
    (pushError c m v).warnings = v.warnings := by
  unfold pushError; split <;> simp

lemma pushError_brv (c : Prop) [Decidable c] (m : String) (v : Validation) :
    (pushError c m v).businessRuleViolations = v.businessRuleViolations := by
  unfold pushError; split <;> simp

lemma pushError_isValid (c : Prop) [Decidable c] (m : String) (v : Validation) :
    (pushError c m v).isValid = if c then false else v.isValid := by
  unfold pushError; split <;> simp

lemma pushWarning_errors (c : Prop) [Decidable c] (m : String) (v : Validation) :
    (pushWarning c m v).errors = v.errors := by
  unfold pushWarning; split <;> simp

lemma pushWarning_warnings (c : Prop) [Decidable c] (m : String) (v : Validation) :
    (pushWarning c m v).warnings = v.warnings ++ if c then [m] else [] := by
  unfold pushWarning; split <;> simp

lemma pushWarning_brv (c : Prop) [Decidable c] (m : String) (v : Validation) :
    (pushWarning c m v).businessRuleViolations = v.businessRuleViolations := by
  unfold pushWarning; split <;> simp

lemma pushWarning_isValid (c : Prop) [Decidable c] (m : String) (v : Validation) :
    (pushWarning c m v).isValid = v.isValid := by
  unfold pushWarning; split <;> simp

lemma pushBRV_errors (c : Prop) [Decidable c] (m : String) (v : Validation) :
    (pushBRV c m v).errors = v.errors := by
  unfold pushBRV; split <;> simp

lemma pushBRV_warnings (c : Prop) [Decidable c] (m : String) (v : Validation) :
    (pushBRV c m v).warnings = v.warnings := by
  unfold pushBRV; split <;> simp

lemma pushBRV_brv (c : Prop) [Decidable c] (m : String) (v : Validation) :
    (pushBRV c m v).businessRuleViolations =
      v.businessRuleViolations ++ if c then [m] else [] := by
  unfold pushBRV; split <;> simp

lemma pushBRV_isValid (c : Prop) [Decidable c] (m : String) (v : Validation) :
    (pushBRV c m v).isValid = if c then false else v.isValid := by
  unfold pushBRV; split <;> simp

/-! ## Characterizations of `validateNoteData`'s four result fields -/

lemma validateNoteData_errors (nd : Note) (cats : List Category)
    (notes : List Note) (dayOf : String → String) (tk : String) :
    (validateNoteData nd cats notes dayOf tk).errors =
      (if nd.title = "" ∨ (jsTrim nd.title).length = 0 then [titleRequiredMsg] else []) ++
      (if nd.title ≠ "" ∧ nd.title.length > titleMaxLength then [titleTooLongMsg] else []) ++
      (if nd.content = "" ∨ (jsTrim nd.content).length = 0 then [contentRequiredMsg] else []) ++
      (if nd.content ≠ "" ∧ nd.content.length > contentMaxLength then [contentTooLongMsg] else []) ++
      (if nd.category = "" then [categoryRequiredMsg] else []) ++
      (if nd.category ≠ "" ∧
          (cats.find? (fun c => c.id = nd.category ∧ c.isActive)).isNone then
        [invalidCategoryMsg] else []) ++
      (if nd.priority ≠ "" ∧ nd.priority ∉ priorityEnum then [invalidPriorityMsg] else []) := by
  simp [validateNoteData, validateBusinessRules, pushError_errors, pushWarning_errors,
    pushBRV_errors, pushWarnings, List.append_assoc]

lemma validateNoteData_warnings (nd : Note) (cats : List Category)
    (notes : List Note) (dayOf : String → String) (tk : String) :
    (validateNoteData nd cats notes dayOf tk).warnings =
      (if nd.tags.length > tagsMaxCount then [tooManyTagsMsg] else []) ++
      tagWarnings nd.tags := by
  simp [validateNoteData, validateBusinessRules, pushError_warnings, pushWarning_warnings,
    pushBRV_warnings, pushWarnings, List.append_assoc]

lemma validateNoteData_brv (nd : Note) (cats : List Category)
    (notes : List Note) (dayOf : String → String) (tk : String) :
    (validateNoteData nd cats notes dayOf tk).businessRuleViolations =
      (if getTodayNoteCount notes dayOf tk ≥ maxDailyNotes then [dailyLimitMsg] else []) ++
      (if nd.content = "" ∨ (jsTrim nd.content).length = 0 then [emptyContentMsg] else []) := by
  simp [validateNoteData, validateBusinessRules, pushError_brv, pushWarning_brv,
    pushBRV_brv, pushWarnings, List.append_assoc]

lemma validateNoteData_isValid_of_title (nd : Note) (cats : List Category)
    (notes : List Note) (dayOf : String → String) (tk : String)
    (h : nd.title ≠ "" ∧ nd.title.length > titleMaxLength) :
    (validateNoteData nd cats notes dayOf tk).isValid = false := by
  simp [validateNoteData, validateBusinessRules, pushError_isValid, pushWarning_isValid,
    pushBRV_isValid, pushWarnings, h, ite_self]

lemma validateNoteData_isValid_of_content (nd : Note) (cats : List Category)
    (notes : List Note) (dayOf : String → String) (tk : String)
    (h : nd.content ≠ "" ∧ nd.content.length > contentMaxLength) :
    (validateNoteData nd cats notes dayOf tk).isValid = false := by
  simp [validateNoteData, validateBusinessRules, pushError_isValid, pushWarning_isValid,
    pushBRV_isValid, pushWarnings, h, ite_self]

lemma validateNoteData_isValid_of_daily (nd : Note) (cats : List Category)
    (notes : List Note) (dayOf : String → String) (tk : String)
    (h : getTodayNoteCount notes dayOf tk ≥ maxDailyNotes) :
    (validateNoteData nd cats notes dayOf tk).isValid = false := by
  simp [validateNoteData, validateBusinessRules, pushError_isValid, pushWarning_isValid,
    pushBRV_isValid, pushWarnings, h, ite_self]

lemma validateNoteData_isValid_true (nd : Note) (cats : List Category)
    (notes : List Note) (dayOf : String → String) (tk : String)
    (h1 : (jsTrim nd.title).length ≠ 0) (h2 : nd.title.length ≤ titleMaxLength)
    (h3 : (jsTrim nd.content).length ≠ 0) (h4 : nd.content.length ≤ contentMaxLength)
    (cat : Category)
    (h5 : cats.find? (fun c => c.id = nd.category ∧ c.isActive) = some cat)
    (h6 : nd.category ≠ "")
    (h7 : nd.priority ∈ priorityEnum)
    (h8 : getTodayNoteCount notes dayOf tk < maxDailyNotes) :
    (validateNoteData nd cats notes dayOf tk).isValid = true := by
  have ht : nd.title ≠ "" := by
    intro e; rw [e] at h1; exact h1 (by decide)
  have hc : nd.content ≠ "" := by
    intro e; rw [e] at h3; exact h3 (by decide)
  have hmem := List.mem_of_find?_eq_some h5
  have hprop := List.find?_some h5
  simp [validateNoteData, validateBusinessRules, pushError_isValid, pushWarning_isValid,
    pushBRV_isValid, pushWarnings, h1, h2, h3, h4, h5, h6, h7, ht, hc,
    Nat.not_le.mpr h8, Nat.not_lt.mpr h2, Nat.not_lt.mpr h4]
  exact ⟨cat, hmem, by simpa using hprop⟩

/-! ## Generic helper lemmas -/

lemma mem_ite_singleton {α : Type} {x m : α} {c : Prop} [Decidable c] :
    x ∈ (if c then [m] else []) ↔ c ∧ x = m := by
  split <;> simp_all

lemma string_append_assoc (a b c : String) : (a ++ b) ++ c = a ++ (b ++ c) := by
  apply String.ext
  simp [String.data_append, List.append_assoc]

lemma string_append_empty (s : String) : s ++ "" = s := by
  apply String.ext
  simp [String.data_append]

lemma objSet_mem {α : Type} (l : List (String × α)) (k : String) (v : α) :
    (k, v) ∈ objSet l k v := by
  induction l with
  | nil => simp [objSet]
  | cons p rest ih =>
    rw [show objSet (p :: rest) k v =
        if p.1 = k then (k, v) :: rest else p :: objSet rest k v from by
      cases p; rfl]
    split
    · exact List.mem_cons_self _ _
    · exact List.mem_cons_of_mem _ ih

/-! ## C2 — validation length limits -/

/-- C2: a 200-character title passes the title length check while 201
characters raises the length error and clears `isValid`; content of
50,000 characters passes while 50,001 raises the error and clears
`isValid`; exceeding the tag limits only ever adds `warnings` and a
note violating only the tag limits still validates. -/
theorem validateNoteData_length_limits :
    (∀ (nd : Note) (cats : List Category) (notes : List Note)
        (dayOf : String → String) (tk : String), nd.title.length = 200 →
      titleTooLongMsg ∉ (validateNoteData nd cats notes dayOf tk).errors) ∧
    (∀ (nd : Note) (cats : List Category) (notes : List Note)
        (dayOf : String → String) (tk : String), nd.title.length = 201 →
      titleTooLongMsg ∈ (validateNoteData nd cats notes dayOf tk).errors ∧
      (validateNoteData nd cats notes dayOf tk).isValid = false) ∧
    (∀ (nd : Note) (cats : List Category) (notes : List Note)
        (dayOf : String → String) (tk : String), nd.content.length = 50000 →
      contentTooLongMsg ∉ (validateNoteData nd cats notes dayOf tk).errors) ∧
    (∀ (nd : Note) (cats : List Category) (notes : List Note)
        (dayOf : String → String) (tk : String), nd.content.length = 50001 →
      contentTooLongMsg ∈ (validateNoteData nd cats notes dayOf tk).errors ∧
      (validateNoteData nd cats notes dayOf tk).isValid = false) ∧
    (∀ (nd : Note) (cats : List Category) (notes : List Note)
        (dayOf : String → String) (tk : String), nd.tags.length > tagsMaxCount →
      tooManyTagsMsg ∈ (validateNoteData nd cats notes dayOf tk).warnings) ∧
    (∀ (nd : Note) (cats : List Category) (notes : List Note)
        (dayOf : String → String) (tk : String) (tag : String),
      tag ∈ nd.tags → tag ≠ "" → tag.length > tagMaxLength →
      tagTooLongMsg tag ∈ (validateNoteData nd cats notes dayOf tk).warnings) ∧
    (∀ (nd : Note) (cats : List Category) (notes : List Note)
        (dayOf : String → String) (tk : String) (cat : Category),
      (jsTrim nd.title).length ≠ 0 → nd.title.length ≤ titleMaxLength →
      (jsTrim nd.content).length ≠ 0 → nd.content.length ≤ contentMaxLength →
      cats.find? (fun c => c.id = nd.category ∧ c.isActive) = some cat →
      nd.category ≠ "" → nd.priority ∈ priorityEnum →
      getTodayNoteCount notes dayOf tk < maxDailyNotes →
      (validateNoteData nd cats notes dayOf tk).isValid = true) := by
  refine ⟨?_, ?_, ?_, ?_, ?_, ?_, ?_⟩
  · intro nd cats notes dayOf tk h
    rw [validateNoteData_errors]
    simp [mem_ite_singleton, titleRequiredMsg, titleTooLongMsg, contentRequiredMsg,
      contentTooLongMsg, categoryRequiredMsg, invalidCategoryMsg, invalidPriorityMsg,
      titleMaxLength, h]
  · intro nd cats notes dayOf tk h
    have ht : nd.title ≠ "" := by
      intro e; rw [e] at h; exact absurd h (by decide)
    refine ⟨?_, validateNoteData_isValid_of_title nd cats notes dayOf tk
      ⟨ht, by rw [h]; decide⟩⟩
    rw [validateNoteData_errors]
    simp [mem_ite_singleton, titleMaxLength, ht, h]
  · intro nd cats notes dayOf tk h
    rw [validateNoteData_errors]
    simp [mem_ite_singleton, titleRequiredMsg, titleTooLongMsg, contentRequiredMsg,
      contentTooLongMsg, categoryRequiredMsg, invalidCategoryMsg, invalidPriorityMsg,
      contentMaxLength, h]
  · intro nd cats notes dayOf tk h
    have hc : nd.content ≠ "" := by
      intro e; rw [e] at h; exact absurd h (by decide)
    refine ⟨?_, validateNoteData_isValid_of_content nd cats notes dayOf tk
      ⟨hc, by rw [h]; decide⟩⟩
    rw [validateNoteData_errors]
    simp [mem_ite_singleton, contentMaxLength, hc, h]
  · intro nd cats notes dayOf tk h
    rw [validateNoteData_warnings]
    simp [mem_ite_singleton, h]
  · intro nd cats notes dayOf tk tag hmem hne hlen
    rw [validateNoteData_warnings]
    have : tagTooLongMsg tag ∈ tagWarnings nd.tags := by
      unfold tagWarnings
      exact List.mem_filterMap.mpr ⟨tag, hmem, by simp [hne, hlen]⟩
    simp [this]
  · intro nd cats notes dayOf tk cat h1 h2 h3 h4 h5 h6 h7 h8
    exact validateNoteData_isValid_true nd cats notes dayOf tk h1 h2 h3 h4 cat h5 h6 h7 h8

/-- Witness for C2 at concrete 200/201/50000/50001-character inputs and
concrete tag-limit violations. -/
theorem validateNoteData_length_limits_witness :
    (titleTooLongMsg ∉
      (validateNoteData { wNote with title := wTitle200 } wCats [] id "d").errors) ∧
    (titleTooLongMsg ∈
      (validateNoteData { wNote with title := wTitle201 } wCats [] id "d").errors ∧
     (validateNoteData { wNote with title := wTitle201 } wCats [] id "d").isValid = false) ∧
    (contentTooLongMsg ∉
      (validateNoteData { wNote with content := wContent50000 } wCats [] id "d").errors) ∧
    (contentTooLongMsg ∈
      (validateNoteData { wNote with content := wContent50001 } wCats [] id "d").errors ∧
     (validateNoteData { wNote with content := wContent50001 } wCats [] id "d").isValid = false) ∧
    (tooManyTagsMsg ∈
      (validateNoteData { wNote with tags := List.replicate 11 "t" } wCats [] id "d").warnings) ∧
    (tagTooLongMsg (String.mk (List.replicate 31 'c')) ∈
      (validateNoteData { wNote with tags := [String.mk (List.replicate 31 'c')] }
        wCats [] id "d").warnings) ∧
    ((validateNoteData { wNote with tags := List.replicate 11 "t" } wCats [] id "d").isValid
      = true) :=
  ⟨validateNoteData_length_limits.1 _ wCats [] id "d"
      (by show (List.replicate 200 'a').length = 200; rw [List.length_replicate]),
   validateNoteData_length_limits.2.1 _ wCats [] id "d"
      (by show (List.replicate 201 'a').length = 201; rw [List.length_replicate]),
   validateNoteData_length_limits.2.2.1 _ wCats [] id "d"
      (by show (List.replicate 50000 'b').length = 50000; rw [List.length_replicate]),
   validateNoteData_length_limits.2.2.2.1 _ wCats [] id "d"
      (by show (List.replicate 50001 'b').length = 50001; rw [List.length_replicate]),
   validateNoteData_length_limits.2.2.2.2.1 _ wCats [] id "d" (by decide),
   validateNoteData_length_limits.2.2.2.2.2.1 _ wCats [] id "d" _
      (by simp) (by decide)
      (by show (List.replicate 31 'c').length > 30; rw [List.length_replicate]; decide),
   validateNoteData_length_limits.2.2.2.2.2.2 _ wCats [] id "d" ⟨"personal", "Personal", true⟩
      (by decide) (by decide) (by decide) (by decide) (by decide) (by decide) (by decide)
      (by decide)⟩

/-! ## C3 — daily quota -/

/-- C3: with 100 (`maxDailyNotes`) notes already created on the current
calendar day, validation records the daily-limit business-rule
violation and fails; with fewer, no daily-limit violation is added. -/
theorem daily_quota_enforcement :
    (∀ (nd : Note) (cats : List Category) (notes : List Note)
        (dayOf : String → String) (tk : String),
      getTodayNoteCount notes dayOf tk ≥ maxDailyNotes →
      dailyLimitMsg ∈ (validateNoteData nd cats notes dayOf tk).businessRuleViolations ∧
      (validateNoteData nd cats notes dayOf tk).isValid = false) ∧
    (∀ (nd : Note) (cats : List Category) (notes : List Note)
        (dayOf : String → String) (tk : String),
      getTodayNoteCount notes dayOf tk < maxDailyNotes →
      dailyLimitMsg ∉ (validateNoteData nd cats notes dayOf tk).businessRuleViolations) := by
  constructor
  · intro nd cats notes dayOf tk h
    refine ⟨?_, validateNoteData_isValid_of_daily nd cats notes dayOf tk h⟩
    rw [validateNoteData_brv]
    simp [mem_ite_singleton, h]
  · intro nd cats notes dayOf tk h
    rw [validateNoteData_brv]
    simp [mem_ite_singleton, Nat.not_le.mpr h, dailyLimitMsg, emptyContentMsg]

/-- Witness for C3: 100 same-day notes trip the quota; on the next
calendar day the count is 0 and no violation is added. -/
theorem daily_quota_enforcement_witness :
    (dailyLimitMsg ∈
      (validateNoteData wNote wCats wNotes100 id
        "2026-01-01T10:00:00.000Z").businessRuleViolations ∧
     (validateNoteData wNote wCats wNotes100 id
        "2026-01-01T10:00:00.000Z").isValid = false) ∧
    (dailyLimitMsg ∉
      (validateNoteData wNote wCats wNotes100 id
        "2026-01-02T10:00:00.000Z").businessRuleViolations) :=
  ⟨daily_quota_enforcement.1 wNote wCats wNotes100 id "2026-01-01T10:00:00.000Z" (by decide),
   daily_quota_enforcement.2 wNote wCats wNotes100 id "2026-01-02T10:00:00.000Z" (by decide)⟩

/-! ## C6 — diff computation -/

/-- C6: a pair of notes differing only in title (tags compared through
`JSON.stringify`, audio by presence) diffs to exactly one `title`
change record; a pair agreeing on every compared field diffs to the
empty list. -/
theorem calculateNoteChanges_diff :
    (∀ original updated : Note,
      original.title ≠ updated.title →
      original.content = updated.content →
      original.category = updated.category →
      jsonStringifyTags original.tags = jsonStringifyTags updated.tags →
      original.priority = updated.priority →
      original.audio.isSome = updated.audio.isSome →
      calculateNoteChanges original updated =
        [⟨"title", Json.str original.title, Json.str updated.title⟩]) ∧
    (∀ original updated : Note,
      original.title = updated.title →
      original.content = updated.content →
      original.category = updated.category →
      jsonStringifyTags original.tags = jsonStringifyTags updated.tags →
      original.priority = updated.priority →
      original.audio.isSome = updated.audio.isSome →
      calculateNoteChanges original updated = []) := by
  constructor <;>
  · intro o u h1 h2 h3 h4 h5 h6
    simp [calculateNoteChanges, h1, h2, h3, h4, h5, h6]

/-- Witness for C6: a concrete rename and a concrete no-op edit. -/
theorem calculateNoteChanges_diff_witness :
    calculateNoteChanges wNote { wNote with title := "Renamed" } =
      [⟨"title", Json.str "Sample", Json.str "Renamed"⟩] ∧
    calculateNoteChanges wNote wNote = [] :=
  ⟨calculateNoteChanges_diff.1 wNote { wNote with title := "Renamed" }
     (by decide) rfl rfl rfl rfl rfl,
   calculateNoteChanges_diff.2 wNote wNote rfl rfl rfl rfl rfl rfl⟩

/-! ## C8 — error categorization precedence -/

/-- C8: `categorizeError` returns the first matching category in the
fixed order Network, Storage, Permission, Audio, File, Validation, and
`'UNKNOWN'` when none match; a message holding both Network and File
keywords is categorized `'NETWORK'`. -/
theorem categorizeError_precedence :
    (∀ e : ErrInfo,
      (matchesNetwork (jsToLower e.message) (jsToLower e.name) = true →
        categorizeError e = "NETWORK") ∧
      (matchesNetwork (jsToLower e.message) (jsToLower e.name) = false →
        matchesStorage (jsToLower e.message) (jsToLower e.name) = true →
        categorizeError e = "STORAGE") ∧
      (matchesNetwork (jsToLower e.message) (jsToLower e.name) = false →
        matchesStorage (jsToLower e.message) (jsToLower e.name) = false →
        matchesPermission (jsToLower e.message) (jsToLower e.name) = true →
        categorizeError e = "PERMISSION") ∧
      (matchesNetwork (jsToLower e.message) (jsToLower e.name) = false →
        matchesStorage (jsToLower e.message) (jsToLower e.name) = false →
        matchesPermission (jsToLower e.message) (jsToLower e.name) = false →
        matchesAudio (jsToLower e.message) (jsToLower e.name) = true →
        categorizeError e = "AUDIO") ∧
      (matchesNetwork (jsToLower e.message) (jsToLower e.name) = false →
        matchesStorage (jsToLower e.message) (jsToLower e.name) = false →
        matchesPermission (jsToLower e.message) (jsToLower e.name) = false →
        matchesAudio (jsToLower e.message) (jsToLower e.name) = false →
        matchesFile (jsToLower e.message) = true →
        categorizeError e = "FILE") ∧
      (matchesNetwork (jsToLower e.message) (jsToLower e.name) = false →
        matchesStorage (jsToLower e.message) (jsToLower e.name) = false →
        matchesPermission (jsToLower e.message) (jsToLower e.name) = false →
        matchesAudio (jsToLower e.message) (jsToLower e.name) = false →
        matchesFile (jsToLower e.message) = false →
        matchesValidation (jsToLower e.message) e.type = true →
        categorizeError e = "VALIDATION") ∧
      (matchesNetwork (jsToLower e.message) (jsToLower e.name) = false →
        matchesStorage (jsToLower e.message) (jsToLower e.name) = false →
        matchesPermission (jsToLower e.message) (jsToLower e.name) = false →
        matchesAudio (jsToLower e.message) (jsToLower e.name) = false →
        matchesFile (jsToLower e.message) = false →
        matchesValidation (jsToLower e.message) e.type = false →
        categorizeError e = "UNKNOWN")) ∧
    categorizeError ⟨"error with network and file", "Error", ""⟩ = "NETWORK" := by
  constructor
  · intro e
    refine ⟨fun h1 => ?_, fun h1 h2 => ?_, fun h1 h2 h3 => ?_, fun h1 h2 h3 h4 => ?_,
      fun h1 h2 h3 h4 h5 => ?_, fun h1 h2 h3 h4 h5 h6 => ?_,
      fun h1 h2 h3 h4 h5 h6 => ?_⟩ <;>
    simp_all [categorizeError]
  · decide

/-- Witness for C8: a message with both Network and File keywords maps
to `'NETWORK'`; a keyword-free message maps to `'UNKNOWN'`. -/
theorem categorizeError_precedence_witness :
    categorizeError ⟨"failed to download File over the network", "TypeError", ""⟩
      = "NETWORK" ∧
    categorizeError ⟨"something odd happened", "Error", ""⟩ = "UNKNOWN" :=
  ⟨(categorizeError_precedence.1 _).1 (by decide),
   (categorizeError_precedence.1 _).2.2.2.2.2.2 (by decide) (by decide) (by decide)
     (by decide) (by decide) (by decide)⟩

/-! ## C4 — declined deletion confirmation -/

/-- C4: when the loaded note is unprotected and the user declines the
confirmation, `startNoteDeletionWorkflow` returns
`{success: false, reason: 'User cancelled deletion'}` without throwing,
leaves the note collection and backup store unchanged, and finalizes
the Workflow Record with status `'cancelled'` and no error field. -/
theorem deletion_cancelled (st : StoreState) (noteId : String) (note : Note)
    (nowMs : Nat) (nowIso : String)
    (hfind : st.notes.find? (fun n => n.id = noteId) = some note)
    (hprot : note.isProtected = false) :
    startNoteDeletionWorkflow st noteId false nowMs nowIso =
      (DeletionResult.ret false (some "User cancelled deletion") none none, st,
       ⟨"note_deletion", "cancelled", none,
        ["load_note", "validate_permissions", "user_confirmation"]⟩) := by
  simp [startNoteDeletionWorkflow, hfind, hprot]

/-- Witness for C4 on a one-note store. -/
theorem deletion_cancelled_witness :
    startNoteDeletionWorkflow ⟨[wNote], []⟩ "orig_id" false 123 "iso" =
      (DeletionResult.ret false (some "User cancelled deletion") none none,
       ⟨[wNote], []⟩,
       ⟨"note_deletion", "cancelled", none,
        ["load_note", "validate_permissions", "user_confirmation"]⟩) :=
  deletion_cancelled ⟨[wNote], []⟩ "orig_id" wNote 123 "iso" rfl rfl

/-! ## C5 — backup before destroy -/

lemma removeFirstById_of_find? (noteId : String) :
    ∀ (l : List Note) (note : Note),
      l.find? (fun n => n.id = noteId) = some note →
      ∃ rest, removeFirstById l noteId = some (note, rest) := by
  intro l
  induction l with
  | nil => intro note h; simp at h
  | cons n t ih =>
    intro note h
    by_cases hn : n.id = noteId
    · rw [List.find?_cons_of_pos _ (by simpa using hn)] at h
      cases h
      exact ⟨t, by simp [removeFirstById, hn]⟩
    · rw [List.find?_cons_of_neg _ (by simpa using hn)] at h
      obtain ⟨rest, hr⟩ := ih note h
      exact ⟨n :: rest, by simp [removeFirstById, hn, hr]⟩

lemma removeFirstById_rest_ids (noteId : String) :
    ∀ (l : List Note), l.Pairwise (fun a b => a.id ≠ b.id) →
      ∀ (d : Note) (rest : List Note),
        removeFirstById l noteId = some (d, rest) →
        ∀ m ∈ rest, m.id ≠ noteId := by
  intro l
  induction l with
  | nil => intro _ d rest h; simp [removeFirstById] at h
  | cons n t ih =>
    intro hp d rest h
    rw [List.pairwise_cons] at hp
    by_cases hn : n.id = noteId
    · simp only [removeFirstById, if_pos hn] at h
      cases h
      intro m hm
      rw [← hn]
      exact fun e => hp.1 m hm e.symm
    · simp only [removeFirstById, if_neg hn] at h
      rcases hr : removeFirstById t noteId with _ | ⟨⟨d2, rest2⟩⟩
      · rw [hr] at h; cases h
      · rw [hr] at h
        simp only [Option.some.injEq, Prod.mk.injEq] at h
        obtain ⟨rfl, rfl⟩ := h
        intro m hm
        rcases List.mem_cons.mp hm with rfl | hm2
        · exact hn
        · exact ih hp.2 d2 rest2 hr m hm2

/-- C5: every run of `startNoteDeletionWorkflow` that returns
`success: true` leaves a `'deletion_backup'` record in the backup store
holding a full snapshot of the note that had the deleted id, and (given
the unique-id invariant of the collection) no note with that id remains
in the persisted collection. -/
theorem deletion_backup_invariant (st : StoreState) (noteId : String)
    (confirm : Bool) (nowMs : Nat) (nowIso : String)
    (reason : Option String) (dn : Option Note) (b : Option String)
    (huniq : st.notes.Pairwise (fun a b => a.id ≠ b.id))
    (hsucc : (startNoteDeletionWorkflow st noteId confirm nowMs nowIso).1 =
      DeletionResult.ret true reason dn b) :
    (st.notes.find? (fun n => n.id = noteId)).isSome = true ∧
    ∀ note, st.notes.find? (fun n => n.id = noteId) = some note →
      note ∈ st.notes ∧ note.id = noteId ∧
      ("deletion_backup_" ++ toString nowMs ++ "_" ++ note.id,
        ({ note := note, timestamp := nowIso, type := "deletion_backup" } : BackupRecord)) ∈
        (startNoteDeletionWorkflow st noteId confirm nowMs nowIso).2.1.backups ∧
      ∀ m ∈ (startNoteDeletionWorkflow st noteId confirm nowMs nowIso).2.1.notes,
        m.id ≠ noteId := by
  rcases hfind : st.notes.find? (fun n => n.id = noteId) with _ | note0
  · rw [startNoteDeletionWorkflow] at hsucc
    rw [hfind] at hsucc
    cases hsucc
  · have hprot : note0.isProtected = false := by
      rcases hp : note0.isProtected
      · rfl
      · rw [startNoteDeletionWorkflow] at hsucc
        rw [hfind] at hsucc
        simp [hp] at hsucc
    have hconf : confirm = true := by
      rcases hc : confirm
      · rw [startNoteDeletionWorkflow] at hsucc
        rw [hfind] at hsucc
        simp [hprot, hc] at hsucc
      · rfl
    subst hconf
    obtain ⟨rest, hrem⟩ := removeFirstById_of_find? noteId st.notes note0 hfind
    have hrun : startNoteDeletionWorkflow st noteId true nowMs nowIso =
        (DeletionResult.ret true none (some note0)
          (some ("deletion_backup_" ++ toString nowMs ++ "_" ++ note0.id)),
         ⟨rest, objSet st.backups
            ("deletion_backup_" ++ toString nowMs ++ "_" ++ note0.id)
            ⟨note0, nowIso, "deletion_backup"⟩⟩,
         ⟨"note_deletion", "success", none,
          ["load_note", "validate_permissions", "user_confirmation",
           "create_backup", "deletion"]⟩) := by
      rw [startNoteDeletionWorkflow]
      rw [hfind]
      simp [hprot, createDeletionBackup, hrem]
    refine ⟨by simp [hfind], ?_⟩
    intro note hfind2
    rw [hfind] at hfind2
    cases hfind2
    refine ⟨List.mem_of_find?_eq_some hfind, by simpa using List.find?_some hfind, ?_, ?_⟩
    · rw [hrun]
      exact objSet_mem st.backups _ _
    · rw [hrun]
      exact removeFirstById_rest_ids noteId st.notes huniq note0 rest hrem

/-- Witness for C5: deleting the only note of a one-note store. -/
theorem deletion_backup_invariant_witness :
    wNote ∈ ([wNote] : List Note) ∧ wNote.id = "orig_id" ∧
    ("deletion_backup_123_orig_id",
      ({ note := wNote, timestamp := "iso", type := "deletion_backup" } : BackupRecord)) ∈
      (startNoteDeletionWorkflow ⟨[wNote], []⟩ "orig_id" true 123 "iso").2.1.backups ∧
    ∀ m ∈ (startNoteDeletionWorkflow ⟨[wNote], []⟩ "orig_id" true 123 "iso").2.1.notes,
      m.id ≠ "orig_id" :=
  (deletion_backup_invariant ⟨[wNote], []⟩ "orig_id" true 123 "iso"
    none (some wNote) (some "deletion_backup_123_orig_id")
    (by simp) rfl).2 wNote rfl

/-! ## C10 / C1 — import loop and JSON round-trip -/

lemma importLoop_fst (f : Nat → String) (now : String) :
    ∀ (l : List Json) (k : Nat), (importLoop f now k l).1 = l.length := by
  intro l
  induction l with
  | nil => intro k; rfl
  | cons n rest ih => intro k; simp [importLoop, ih]

lemma importLoop_snd_get? (f : Nat → String) (now : String) :
    ∀ (l : List Json) (k i : Nat),
      (importLoop f now k l).2.get? i =
        (l.get? i).map (fun n => importNote (f (k + i)) now n) := by
  intro l
  induction l with
  | nil => intro k i; simp [importLoop]
  | cons n rest ih =>
    intro k i
    cases i with
    | zero => simp [importLoop]
    | succ j =>
      have e : k + (j + 1) = (k + 1) + j := by omega
      simp only [importLoop, List.get?_cons_succ, ih (k + 1) j, e]

lemma performDataImport_arr (data : Json) (freshIds : Nat → String)
    (now : String) (existing : List Json) (l : List Json)
    (h : getField data "notes" = some (Json.arr l)) :
    (performDataImport data freshIds now existing).1 = ⟨l.length, 0, []⟩ ∧
    (performDataImport data freshIds now existing).2 =
      existing ++ (importLoop freshIds now 0 l).2 ∧
    ∀ i, (performDataImport data freshIds now existing).2.get?
        (existing.length + i) =
      (l.get? i).map (fun n => importNote (freshIds i) now n) := by
  unfold performDataImport
  rw [h]
  refine ⟨by simp [importLoop_fst], rfl, ?_⟩
  intro i
  rw [List.get?_append_right (Nat.le_add_right _ _)]
  rw [Nat.add_sub_cancel_left]
  simpa using importLoop_snd_get? freshIds now l 0 i

/-- C10: whenever the input's `notes` field is an array,
`performDataImport` reports `skipped = 0` and `errors = []`, counts
`imported` equal to the array's length, and appends every incoming
entry — whatever its shape — to the persisted collection with fresh id
and timestamps; the per-note error branch is unreachable. -/
theorem performDataImport_no_skip (data : Json) (freshIds : Nat → String)
    (now : String) (existing : List Json) (l : List Json)
    (h : getField data "notes" = some (Json.arr l)) :
    (performDataImport data freshIds now existing).1 = ⟨l.length, 0, []⟩ ∧
    (performDataImport data freshIds now existing).2 =
      existing ++ (importLoop freshIds now 0 l).2 ∧
    ∀ i, (performDataImport data freshIds now existing).2.get?
        (existing.length + i) =
      (l.get? i).map (fun n => importNote (freshIds i) now n) :=
  performDataImport_arr data freshIds now existing l h

/-- Witness for C10: importing a title-less note object and a bare
number both succeed, with no skips and no errors. -/
theorem performDataImport_no_skip_witness :
    (performDataImport wImportData (fun k => "fresh" ++ toString k) "NOW" []).1 =
      ⟨2, 0, []⟩ ∧
    (performDataImport wImportData (fun k => "fresh" ++ toString k) "NOW" []).2.get? 0 =
      some (importNote "fresh0" "NOW" (Json.obj [("content", Json.str "hello")])) :=
  ⟨(performDataImport_no_skip wImportData _ "NOW" [] _ rfl).1,
   (performDataImport_no_skip wImportData _ "NOW" [] _ rfl).2.2 0⟩

lemma importNote_toJson (f now : String) (n : Note) :
    importNote f now (Note.toJson n) =
      Json.obj
        [ ("id", Json.str f)
        , ("title", Json.str n.title)
        , ("content", Json.str n.content)
        , ("category", Json.str n.category)
        , ("tags", Json.arr (n.tags.map Json.str))
        , ("priority", Json.str n.priority)
        , ("isPublic", Json.bool n.isPublic)
        , ("audio", match n.audio with | some a => Json.str a | none => Json.null)
        , ("createdAt", Json.str now)
        , ("lastModified", Json.str now)
        , ("isProtected", Json.bool n.isProtected) ] := rfl

lemma exportDataJson_notes (notes : List Note) (d v : String) (c m : Json) :
    getField (exportDataJson notes d v c m) "notes" =
      some (Json.arr (notes.map Note.toJson)) := rfl

/-- C1: importing the parsed JSON export of a note collection appends
exactly one note per original; each appended note keeps the original's
title, content, category, tags and priority, while its id and both
timestamps are the freshly generated values and (when the generated
values differ from the originals, as fresh generation intends) not
equal to the originals. -/
theorem json_export_import_roundtrip (notes : List Note)
    (exportDate version : String) (categories metadata : Json)
    (freshIds : Nat → String) (now : String) (existing : List Json) :
    (performDataImport (exportDataJson notes exportDate version categories metadata)
        freshIds now existing).1 = ⟨notes.length, 0, []⟩ ∧
    (∀ (k : Nat) (orig : Note), notes.get? k = some orig →
      (getFieldAt (performDataImport
          (exportDataJson notes exportDate version categories metadata)
          freshIds now existing).2 (existing.length + k) "title" =
        some (Json.str orig.title) ∧
       getFieldAt (performDataImport
          (exportDataJson notes exportDate version categories metadata)
          freshIds now existing).2 (existing.length + k) "content" =
        some (Json.str orig.content) ∧
       getFieldAt (performDataImport
          (exportDataJson notes exportDate version categories metadata)
          freshIds now existing).2 (existing.length + k) "category" =
        some (Json.str orig.category) ∧
       getFieldAt (performDataImport
          (exportDataJson notes exportDate version categories metadata)
          freshIds now existing).2 (existing.length + k) "tags" =
        some (Json.arr (orig.tags.map Json.str)) ∧
       getFieldAt (performDataImport
          (exportDataJson notes exportDate version categories metadata)
          freshIds now existing).2 (existing.length + k) "priority" =
        some (Json.str orig.priority)) ∧
      (getFieldAt (performDataImport
          (exportDataJson notes exportDate version categories metadata)
          freshIds now existing).2 (existing.length + k) "id" =
        some (Json.str (freshIds k)) ∧
       getFieldAt (performDataImport
          (exportDataJson notes exportDate version categories metadata)
          freshIds now existing).2 (existing.length + k) "createdAt" =
        some (Json.str now) ∧
       getFieldAt (performDataImport
          (exportDataJson notes exportDate version categories metadata)
          freshIds now existing).2 (existing.length + k) "lastModified" =
        some (Json.str now)) ∧
      ((freshIds k ≠ orig.id →
        getFieldAt (performDataImport
            (exportDataJson notes exportDate version categories metadata)
            freshIds now existing).2 (existing.length + k) "id" ≠
          some (Json.str orig.id)) ∧
       (now ≠ orig.createdAt →
        getFieldAt (performDataImport
            (exportDataJson notes exportDate version categories metadata)
            freshIds now existing).2 (existing.length + k) "createdAt" ≠
          some (Json.str orig.createdAt)) ∧
       (now ≠ orig.lastModified →
        getFieldAt (performDataImport
            (exportDataJson notes exportDate version categories metadata)
            freshIds now existing).2 (existing.length + k) "lastModified" ≠
          some (Json.str orig.lastModified)))) := by
  have harr := exportDataJson_notes notes exportDate version categories metadata
  obtain ⟨h1, h2, h3⟩ := performDataImport_arr
    (exportDataJson notes exportDate version categories metadata)
    freshIds now existing (notes.map Note.toJson) harr
  constructor
  · rw [h1]; simp
  · intro k orig hk
    have hget := h3 k
    rw [List.get?_map, hk] at hget
    simp only [Option.map_some'] at hget
    have hfield : ∀ key : String,
        getFieldAt (performDataImport
          (exportDataJson notes exportDate version categories metadata)
          freshIds now existing).2 (existing.length + k) key =
        getField (importNote (freshIds k) now (Note.toJson orig)) key := by
      intro key
      rw [getFieldAt, hget]
      rfl
    refine ⟨⟨?_, ?_, ?_, ?_, ?_⟩, ⟨?_, ?_, ?_⟩, ?_, ?_, ?_⟩ <;>
      rw [hfield] <;> rw [importNote_toJson]
    · rfl
    · rfl
    · rfl
    · rfl
    · rfl
    · rfl
    · rfl
    · rfl
    · intro hne he
      simp only [getField, jsonLookup] at he
      simp at he
      exact hne he
    · intro hne he
      simp only [getField, jsonLookup] at he
      simp at he
      exact hne he
    · intro hne he
      simp only [getField, jsonLookup] at he
      simp at he
      exact hne he

/-- Witness for C1: round-tripping a one-note collection. -/
theorem json_export_import_roundtrip_witness :
    getFieldAt (performDataImport
        (exportDataJson [wNote] "2026-02-02" "2.1.0" Json.null Json.null)
        (fun _ => "note_999") "2026-02-02T00:00:00.000Z" []).2 0 "title" =
      some (Json.str "Sample") ∧
    getFieldAt (performDataImport
        (exportDataJson [wNote] "2026-02-02" "2.1.0" Json.null Json.null)
        (fun _ => "note_999") "2026-02-02T00:00:00.000Z" []).2 0 "id" =
      some (Json.str "note_999") ∧
    getFieldAt (performDataImport
        (exportDataJson [wNote] "2026-02-02" "2.1.0" Json.null Json.null)
        (fun _ => "note_999") "2026-02-02T00:00:00.000Z" []).2 0 "id" ≠
      some (Json.str "orig_id") ∧
    getFieldAt (performDataImport
        (exportDataJson [wNote] "2026-02-02" "2.1.0" Json.null Json.null)
        (fun _ => "note_999") "2026-02-02T00:00:00.000Z" []).2 0 "createdAt" ≠
      some (Json.str "2026-01-01T10:00:00.000Z") :=
  match (json_export_import_roundtrip [wNote] "2026-02-02" "2.1.0" Json.null Json.null
      (fun _ => "note_999") "2026-02-02T00:00:00.000Z" []).2 0 wNote rfl with
  | ⟨hfields, hfresh, hne⟩ =>
      ⟨hfields.1, hfresh.1, hne.1 (by decide), hne.2.1 (by decide)⟩

/-! ## C7 — CSV serialization -/

lemma exportToCSV_foldl :
    ∀ (l : List Note) (init : String),
      l.foldl (fun csv note => csv ++ csvRow note ++ "\n") init = init ++ csvBody l := by
  intro l
  induction l with
  | nil => intro init; simp [csvBody, string_append_empty]
  | cons n t ih =>
    intro init
    rw [List.foldl_cons, ih, csvBody]
    simp [string_append_assoc]

lemma dupQuoteChars_append (l1 l2 : List Char) :
    dupQuoteChars (l1 ++ l2) = dupQuoteChars l1 ++ dupQuoteChars l2 := by
  induction l1 with
  | nil => rfl
  | cons c t ih =>
    simp only [List.cons_append, dupQuoteChars]
    split <;> simp [ih]

lemma dupQuoteChars_id (l : List Char) (h : ∀ c ∈ l, c ≠ '"') :
    dupQuoteChars l = l := by
  induction l with
  | nil => rfl
  | cons c t ih =>
    rw [dupQuoteChars, if_neg (h c (List.mem_cons_self c t)), ih]
    intro x hx
    exact h x (List.mem_cons_of_mem c hx)

/-- C7 counterexample: a note whose category contains a double quote is
serialized with that quote left alone inside the quoted field — the
claimed every-text-field quote-doubling would have produced the second
string, and the output differs from it. -/
theorem exportToCSV_escaping_counterexample :
    exportToCSV [wCsvNote] =
      "ID,Title,Content,Category,Priority,Tags,Has Audio,Is Public,Created Date,Modified Date,Character Count\n\"n1\",\"T\",\"He said \"\"hi\"\"\",\"x\"y\",\"medium\",\"a; b\",No,No,\"2026-01-01\",\"2026-01-02\",12\n" ∧
    exportToCSV [wCsvNote] ≠
      "ID,Title,Content,Category,Priority,Tags,Has Audio,Is Public,Created Date,Modified Date,Character Count\n\"n1\",\"T\",\"He said \"\"hi\"\"\",\"x\"\"y\",\"medium\",\"a; b\",No,No,\"2026-01-01\",\"2026-01-02\",12\n" := by
  constructor
  · decide
  · decide

/-- C7 (amended): the output is the exact 11-column header line followed
by one `csvRow` line per note; quote doubling is applied to Title and
Content only (it is a homomorphism sending `"` to `""` and leaving
quote-free text unchanged), the other quoted fields are embedded
verbatim, and tags are joined with `'; '` — as the concrete row for a
note containing `He said "hi"` shows. -/
theorem exportToCSV_amended :
    (∀ notes : List Note, exportToCSV notes = csvHeader ++ "\n" ++ csvBody notes) ∧
    (∀ a b : String,
      csvEscapeQuotes (a ++ b) = csvEscapeQuotes a ++ csvEscapeQuotes b) ∧
    csvEscapeQuotes "\"" = "\"\"" ∧
    (∀ s : String, (∀ c ∈ s.toList, c ≠ '"') → csvEscapeQuotes s = s) ∧
    csvRow wCsvNote =
      "\"n1\",\"T\",\"He said \"\"hi\"\"\",\"x\"y\",\"medium\",\"a; b\",No,No,\"2026-01-01\",\"2026-01-02\",12" := by
  refine ⟨?_, ?_, by decide, ?_, by decide⟩
  · intro notes
    rw [exportToCSV, exportToCSV_foldl, string_append_assoc]
  · intro a b
    apply String.ext
    show dupQuoteChars ((a ++ b).toList) = _
    rw [show (a ++ b).toList = a.toList ++ b.toList from by
      simp [String.toList, String.data_append]]
    rw [dupQuoteChars_append]
    simp [csvEscapeQuotes, String.data_append]
  · intro s h
    apply String.ext
    show dupQuoteChars s.toList = s.data
    rw [dupQuoteChars_id s.toList h]
    rfl

/-- Witness for C7 (amended): quote-free text is left unchanged by the
escaping. -/
theorem exportToCSV_amended_witness :
    csvEscapeQuotes "plain text" = "plain text" :=
  exportToCSV_amended.2.2.2.1 "plain text" (by decide)

/-! ## C9 — the import-warnings confirmation is unreachable -/

lemma validateImportData_isValid (data : Json) :
    (validateImportData data).isValid = true := by
  unfold validateImportData
  rcases getField data "notes" with _ | v
  · rfl
  · rcases v <;> (dsimp only; (repeat' split) <;> rfl)

/-- C9: `validateImportData` only ever collects warnings — its
`isValid` is identically `true`, so `startImportWorkflow` never shows
the warnings confirmation; concretely, a parsed import whose note lacks
a title yields a missing-title warning yet is imported without the
user being asked. -/
theorem import_anyway_confirm_unreachable :
    (∀ data : Json, (validateImportData data).isValid = true) ∧
    (∀ (data : Json) (importAnywayResp previewConfirm : Bool)
        (freshIds : Nat → String) (now : String) (existing : List Json),
      (startImportWorkflow data importAnywayResp previewConfirm freshIds now
        existing).askedImportAnyway = false) ∧
    (validateImportData wMissingTitleData).warnings = ["Note 1 missing title"] ∧
    (startImportWorkflow wMissingTitleData false true (fun k => "f" ++ toString k)
      "NOW" []).status = "success" ∧
    (startImportWorkflow wMissingTitleData false true (fun k => "f" ++ toString k)
      "NOW" []).imported = 1 := by
  refine ⟨validateImportData_isValid, ?_, rfl, rfl, rfl⟩
  intro data r1 r2 f now ex
  have h := validateImportData_isValid data
  simp only [startImportWorkflow, h]
  simp [apply_ite ImportWorkflowRun.askedImportAnyway]

end NotesApp
